import Mathlib

/-!
Formal model of the landscape-generation core of the
`UselessToys/winchester_minecraft` repository, together with theorems
checking the repository's specification against the code.

Conventions of the embedding:
* Python floats are modelled as rationals (`ℚ`); all claims checked here
  are threshold comparisons and affine arithmetic, which rationals model
  exactly.
* The external noise library (`noise.pnoise2`) is modelled as an abstract
  function parameter with the argument list used at the call sites
  (`x`, `y`, `octaves`, `persistence`, `lacunarity`, `repeatx`, `repeaty`,
  `base`).
* The global `random.random()` stream is modelled by a function
  `rand : ℕ → ℚ` giving the successive draws, threaded by an explicit
  draw counter in program order.
* Python dictionaries used as cells (`{"height": .., "biome": .., "feature": ..}`)
  are modelled as a structure with an `Option` feature field (the key is
  absent until assigned).
* Code that can raise (`IndexError` on ragged grids, `AttributeError`
  on a missing enum member) is modelled in `Option` / `Except`.
-/

namespace Winchester

/-- Biome labels, from `src/core/biome.py` (`class BiomeType`). -/
inductive BiomeType where
  | plains | forest | desert | ocean | mountain
  | tundra | savanna | swamp | taiga | jungle
deriving DecidableEq, Repr

/-- Block kinds, from `src/core/block.py` (`class BlockType`).  Note the
enum has `SAND` but no `SANDSTONE` member. -/
inductive BlockType where
  | stone | dirt | grass | sand | water | wood | leaves
  | diamond_ore | gold_ore | coal_ore | air | gravel | lapis_lazuli
  | redstone_ore | emerald_ore | obsidian | bedrock | ice | snow
  | clay | pumpkin | melon
deriving DecidableEq, Repr

/-- Entity kinds, from `src/core/entity.py` (`class EntityType`). -/
inductive EntityType where
  | creeper | zombie | skeleton | spider | enderman | player
  | villager | witch | ghast | slime | guardian | shulker
  | pig | cow | sheep | chicken | horse | wolf | ocelot
deriving DecidableEq, Repr

/-- The three feature strings written by `add_biome_features`. -/
inductive Feature where
  | tree | water | cloud
deriving DecidableEq, Repr

/-- One landscape cell: the dict `{"height": float, "biome": BiomeType|None}`
to which `add_biome_features` may add a single `"feature"` key. -/
structure Cell where
  height : ℚ
  biome : Option BiomeType
  feature : Option Feature
deriving DecidableEq, Repr

instance : Inhabited Cell := ⟨⟨0, none, none⟩⟩

/-- The argument shape of the external sampler `noise.pnoise2` as called in
`src/core/generator.py`: `(x, y, octaves, persistence, lacunarity, repeatx,
repeaty, base)`. -/
abbrev NoiseFn : Type := ℚ → ℚ → ℕ → ℚ → ℚ → ℕ → ℕ → ℤ → ℚ

/-- The raw-noise-to-`[0,1]` normalisation `(value + 1) / 2` used for both
fields in `generate_advanced_landscape`. -/
def normalize (v : ℚ) : ℚ := (v + 1) / 2

/-- The elevation sample of cell `(x, y)`: the first `noise.pnoise2` call of
`generate_advanced_landscape`, normalised to `[0,1]`. -/
def elevation_at (pnoise2 : NoiseFn) (width height : ℕ) (scale : ℚ)
    (octaves : ℕ) (persistence lacunarity : ℚ) (x y : ℕ) : ℚ :=
  normalize (pnoise2 ((x : ℚ) / scale) ((y : ℚ) / scale)
    octaves persistence lacunarity width height 0)

/-- The biome-selector sample of cell `(x, y)`: the second `noise.pnoise2`
call of `generate_advanced_landscape` (fixed `octaves=3`, `persistence=0.5`,
`lacunarity=2.0`), normalised to `[0,1]`. -/
def biome_value_at (pnoise2 : NoiseFn) (width height : ℕ)
    (biome_scale : ℚ) (x y : ℕ) : ℚ :=
  normalize (pnoise2 ((x : ℚ) / biome_scale) ((y : ℚ) / biome_scale)
    3 (1/2) 2 width height 0)

/-- The base height map built by the first pass of
`generate_advanced_landscape`. -/
def height_map (pnoise2 : NoiseFn) (width height : ℕ) (scale : ℚ)
    (octaves : ℕ) (persistence lacunarity : ℚ) : List (List ℚ) :=
  (List.range height).map fun y => (List.range width).map fun x =>
    elevation_at pnoise2 width height scale octaves persistence lacunarity x y

/-- The biome map built by the second pass of `generate_advanced_landscape`. -/
def biome_map (pnoise2 : NoiseFn) (width height : ℕ)
    (biome_scale : ℚ) : List (List ℚ) :=
  (List.range height).map fun y => (List.range width).map fun x =>
    biome_value_at pnoise2 width height biome_scale x y

/-- Grid lookup `g[y][x]` for scalar maps (in-bounds in every use below). -/
def get2 (g : List (List ℚ)) (y x : ℕ) : ℚ := (g.getD y []).getD x 0

/-- The biome classification of the third pass of
`generate_advanced_landscape`: sea-level override, then the fixed
biome-selector bands `0.3`, `0.6`, `0.8`. -/
def assign_biome (sea_level height_value biome_value : ℚ) : BiomeType :=
  if height_value < sea_level then .ocean
  else if biome_value < 3/10 then .desert
  else if biome_value < 3/5 then .plains
  else if biome_value < 4/5 then .forest
  else .mountain

/-- Function `generate_advanced_landscape` from `src/core/generator.py`: builds the
height map and the biome map, then assigns each cell its normalized height
and classified biome (cells start with no `"feature"` key). -/
def generate_advanced_landscape (pnoise2 : NoiseFn) (width height : ℕ)
    (scale : ℚ) (octaves : ℕ)
    (persistence lacunarity sea_level biome_scale : ℚ) : List (List Cell) :=
  let hm := height_map pnoise2 width height scale octaves persistence lacunarity
  let bm := biome_map pnoise2 width height biome_scale
  (List.range height).map fun y => (List.range width).map fun x =>
    { height := get2 hm y x
      biome := some (assign_biome sea_level (get2 hm y x) (get2 bm y x))
      feature := none }

/-- Cell lookup `landscape[y][x]` (with a default, used in-bounds below). -/
def getCell (g : List (List Cell)) (y x : ℕ) : Cell :=
  (g.getD y []).getD x default

theorem getCell_generate (pnoise2 : NoiseFn) (width height : ℕ)
    (scale : ℚ) (octaves : ℕ)
    (persistence lacunarity sea_level biome_scale : ℚ)
    (y x : ℕ) (hy : y < height) (hx : x < width) :
    getCell (generate_advanced_landscape pnoise2 width height scale octaves
      persistence lacunarity sea_level biome_scale) y x =
    { height := elevation_at pnoise2 width height scale octaves
        persistence lacunarity x y
      biome := some (assign_biome sea_level
        (elevation_at pnoise2 width height scale octaves persistence
          lacunarity x y)
        (biome_value_at pnoise2 width height biome_scale x y))
      feature := none } := by
  simp [generate_advanced_landscape, getCell, get2, height_map, biome_map,
    List.getD_eq_getElem?_getD, List.getElem?_map, List.getElem?_range, hy, hx]

/-- C1: in `generate_advanced_landscape`, a cell whose normalized elevation is
strictly below `sea_level` is classified OCEAN, whatever the biome-selector
value at that cell is. -/
theorem C1_low_elevation_is_ocean (pnoise2 : NoiseFn) (width height : ℕ)
    (scale : ℚ) (octaves : ℕ)
    (persistence lacunarity sea_level biome_scale : ℚ)
    (y x : ℕ) (hy : y < height) (hx : x < width)
    (hlow : (getCell (generate_advanced_landscape pnoise2 width height scale
      octaves persistence lacunarity sea_level biome_scale) y x).height
      < sea_level) :
    (getCell (generate_advanced_landscape pnoise2 width height scale octaves
      persistence lacunarity sea_level biome_scale) y x).biome =
      some BiomeType.ocean := by
  rw [getCell_generate pnoise2 width height scale octaves persistence
    lacunarity sea_level biome_scale y x hy hx] at hlow ⊢
  simp only at hlow
  simp [assign_biome, hlow]

/-- Witness for C1, realising the spec's example scenario: a 4×4 grid with
`sea_level = 0.5` and an elevation field returning raw noise `-0.6`
(normalized `0.2`) everywhere, while the biome-selector field (octaves 3)
returns raw `0.8` (normalized `0.9`, the MOUNTAIN band): the inspected cell
is OCEAN anyway. -/
theorem C1_low_elevation_is_ocean_witness :
    (getCell (generate_advanced_landscape
        (fun _ _ oct _ _ _ _ _ => if oct = 3 then 4/5 else -(3/5))
        4 4 50 6 (1/2) 2 (1/2) 200) 0 0).height < 1/2 ∧
    (getCell (generate_advanced_landscape
        (fun _ _ oct _ _ _ _ _ => if oct = 3 then 4/5 else -(3/5))
        4 4 50 6 (1/2) 2 (1/2) 200) 0 0).biome = some BiomeType.ocean :=
  ⟨by
    rw [getCell_generate (fun _ _ oct _ _ _ _ _ => if oct = 3 then 4/5
      else -(3/5)) 4 4 50 6 (1/2) 2 (1/2) 200 0 0 (by decide) (by decide)]
    norm_num [elevation_at, normalize],
   C1_low_elevation_is_ocean
     (fun _ _ oct _ _ _ _ _ => if oct = 3 then 4/5 else -(3/5))
     4 4 50 6 (1/2) 2 (1/2) 200 0 0 (by decide) (by decide)
     (by
       rw [getCell_generate (fun _ _ oct _ _ _ _ _ => if oct = 3 then 4/5
         else -(3/5)) 4 4 50 6 (1/2) 2 (1/2) 200 0 0 (by decide) (by decide)]
       norm_num [elevation_at, normalize])⟩

/-- C2: in `generate_advanced_landscape`, a cell whose normalized elevation is
at least `sea_level` gets its biome purely from the normalized biome-selector
value `v`: `v < 0.3` → DESERT, `v < 0.6` → PLAINS, `v < 0.8` → FOREST,
otherwise MOUNTAIN, with exactly these cutoff constants. -/
theorem C2_biome_bands (pnoise2 : NoiseFn) (width height : ℕ)
    (scale : ℚ) (octaves : ℕ)
    (persistence lacunarity sea_level biome_scale : ℚ)
    (y x : ℕ) (hy : y < height) (hx : x < width)
    (hsea : sea_level ≤ (getCell (generate_advanced_landscape pnoise2 width
      height scale octaves persistence lacunarity sea_level biome_scale)
      y x).height) :
    (getCell (generate_advanced_landscape pnoise2 width height scale octaves
      persistence lacunarity sea_level biome_scale) y x).biome =
    some (if biome_value_at pnoise2 width height biome_scale x y < 3/10 then
        BiomeType.desert
      else if biome_value_at pnoise2 width height biome_scale x y < 3/5 then
        BiomeType.plains
      else if biome_value_at pnoise2 width height biome_scale x y < 4/5 then
        BiomeType.forest
      else BiomeType.mountain) := by
  rw [getCell_generate pnoise2 width height scale octaves persistence
    lacunarity sea_level biome_scale y x hy hx] at hsea ⊢
  simp only at hsea
  simp [assign_biome, not_lt.mpr hsea]

/-- Witness for C2: elevation field raw `0.8` (normalized `0.9 ≥ 0.5`),
biome-selector raw `0` (normalized `0.5`, the PLAINS band): the cell is
classified PLAINS. -/
theorem C2_biome_bands_witness :
    (getCell (generate_advanced_landscape
        (fun _ _ oct _ _ _ _ _ => if oct = 3 then 0 else 4/5)
        4 4 50 6 (1/2) 2 (1/2) 200) 1 2).biome = some BiomeType.plains := by
  have h := C2_biome_bands
    (fun _ _ oct _ _ _ _ _ => if oct = 3 then 0 else 4/5)
    4 4 50 6 (1/2) 2 (1/2) 200 1 2 (by decide) (by decide)
    (by
      rw [getCell_generate (fun _ _ oct _ _ _ _ _ => if oct = 3 then 0
        else 4/5) 4 4 50 6 (1/2) 2 (1/2) 200 1 2 (by decide) (by decide)]
      norm_num [elevation_at, normalize])
  rw [h]
  norm_num [biome_value_at, normalize]

/-- C4: if the raw noise sampler always returns a value in `[-1,1]`, then
every in-bounds cell of `generate_advanced_landscape` has its normalized
elevation in `[0,1]`. -/
theorem C4_elevation_in_unit_interval (pnoise2 : NoiseFn) (width height : ℕ)
    (scale : ℚ) (octaves : ℕ)
    (persistence lacunarity sea_level biome_scale : ℚ)
    (hnoise : ∀ a b c d e f g i, pnoise2 a b c d e f g i ∈
      Set.Icc (-1 : ℚ) 1)
    (y x : ℕ) (hy : y < height) (hx : x < width) :
    (getCell (generate_advanced_landscape pnoise2 width height scale octaves
      persistence lacunarity sea_level biome_scale) y x).height ∈
      Set.Icc (0 : ℚ) 1 := by
  rw [getCell_generate pnoise2 width height scale octaves persistence
    lacunarity sea_level biome_scale y x hy hx]
  obtain ⟨h1, h2⟩ := hnoise ((x : ℚ) / scale) ((y : ℚ) / scale)
    octaves persistence lacunarity width height 0
  simp only [elevation_at, normalize, Set.mem_Icc]
  constructor <;> linarith

/-- Witness for C4: with the constant-zero sampler (which lies in `[-1,1]`),
the cell elevation lands in `[0,1]`. -/
theorem C4_elevation_in_unit_interval_witness :
    (getCell (generate_advanced_landscape
        (fun _ _ _ _ _ _ _ _ => (0 : ℚ)) 3 2 50 6 (1/2) 2 (1/2) 200)
      0 0).height ∈ Set.Icc (0 : ℚ) 1 :=
  C4_elevation_in_unit_interval (fun _ _ _ _ _ _ _ _ => (0 : ℚ))
    3 2 50 6 (1/2) 2 (1/2) 200
    (by intro a b c d e f g i; constructor <;> norm_num) 0 0
    (by decide) (by decide)

/-- C6: function `generate_advanced_landscape` is deterministic: two calls with
identical arguments produce identical grids, and each in-bounds cell is a
pure closed-form function of the call arguments and the cell coordinates
(the `base` seed being fixed at `0` inside `elevation_at` /
`biome_value_at`), so no hidden mutable state can influence the result. -/
theorem C6_generation_deterministic (pnoise2 : NoiseFn) (width height : ℕ)
    (scale : ℚ) (octaves : ℕ)
    (persistence lacunarity sea_level biome_scale : ℚ) :
    generate_advanced_landscape pnoise2 width height scale octaves
      persistence lacunarity sea_level biome_scale =
    generate_advanced_landscape pnoise2 width height scale octaves
      persistence lacunarity sea_level biome_scale ∧
    ∀ y x, y < height → x < width →
      getCell (generate_advanced_landscape pnoise2 width height scale octaves
        persistence lacunarity sea_level biome_scale) y x =
      { height := elevation_at pnoise2 width height scale octaves
          persistence lacunarity x y
        biome := some (assign_biome sea_level
          (elevation_at pnoise2 width height scale octaves persistence
            lacunarity x y)
          (biome_value_at pnoise2 width height biome_scale x y))
        feature := none } := by
  refine ⟨rfl, fun y x hy hx => ?_⟩
  exact getCell_generate pnoise2 width height scale octaves persistence
    lacunarity sea_level biome_scale y x hy hx

/-- Witness for C6 at a concrete call. -/
theorem C6_generation_deterministic_witness :
    generate_advanced_landscape (fun _ _ _ _ _ _ _ _ => (0 : ℚ))
      2 2 50 6 (1/2) 2 (1/2) 200 =
    generate_advanced_landscape (fun _ _ _ _ _ _ _ _ => (0 : ℚ))
      2 2 50 6 (1/2) 2 (1/2) 200 ∧
    getCell (generate_advanced_landscape (fun _ _ _ _ _ _ _ _ => (0 : ℚ))
      2 2 50 6 (1/2) 2 (1/2) 200) 0 1 =
    { height := elevation_at (fun _ _ _ _ _ _ _ _ => (0 : ℚ))
        2 2 50 6 (1/2) 2 1 0
      biome := some (assign_biome (1/2)
        (elevation_at (fun _ _ _ _ _ _ _ _ => (0 : ℚ)) 2 2 50 6 (1/2) 2 1 0)
        (biome_value_at (fun _ _ _ _ _ _ _ _ => (0 : ℚ)) 2 2 200 1 0))
      feature := none } :=
  ⟨(C6_generation_deterministic (fun _ _ _ _ _ _ _ _ => (0 : ℚ))
      2 2 50 6 (1/2) 2 (1/2) 200).1,
   (C6_generation_deterministic (fun _ _ _ _ _ _ _ _ => (0 : ℚ))
      2 2 50 6 (1/2) 2 (1/2) 200).2 0 1 (by decide) (by decide)⟩

/-- C9: the grid returned by `generate_advanced_landscape` has exactly
`height` rows and every row has exactly `width` cells. -/
theorem C9_grid_dimensions (pnoise2 : NoiseFn) (width height : ℕ)
    (scale : ℚ) (octaves : ℕ)
    (persistence lacunarity sea_level biome_scale : ℚ) :
    (generate_advanced_landscape pnoise2 width height scale octaves
      persistence lacunarity sea_level biome_scale).length = height ∧
    ∀ y, y < height →
      ((generate_advanced_landscape pnoise2 width height scale octaves
        persistence lacunarity sea_level biome_scale).getD y []).length =
        width := by
  refine ⟨by simp [generate_advanced_landscape], fun y hy => ?_⟩
  simp [generate_advanced_landscape, List.getD_eq_getElem?_getD,
    List.getElem?_map, List.getElem?_range, hy]

/-- Witness for C9 on a concrete 3×2 call. -/
theorem C9_grid_dimensions_witness :
    (generate_advanced_landscape (fun _ _ _ _ _ _ _ _ => (0 : ℚ))
      3 2 50 6 (1/2) 2 (1/2) 200).length = 2 ∧
    ((generate_advanced_landscape (fun _ _ _ _ _ _ _ _ => (0 : ℚ))
      3 2 50 6 (1/2) 2 (1/2) 200).getD 0 []).length = 3 :=
  ⟨(C9_grid_dimensions (fun _ _ _ _ _ _ _ _ => (0 : ℚ))
      3 2 50 6 (1/2) 2 (1/2) 200).1,
   (C9_grid_dimensions (fun _ _ _ _ _ _ _ _ => (0 : ℚ))
      3 2 50 6 (1/2) 2 (1/2) 200).2 0 (by decide)⟩

/-- The body of the per-cell loop of `add_biome_features`
(`src/core/generator.py`): tree check first (the `random.random()` draw is
consumed only when the cell's biome is FOREST, by short-circuit `and`), else
water by elevation, else cloud.  `k` is the position in the `rand` draw
stream; the returned counter accounts for the draws consumed. -/
def feature_cell (tree_density water_level cloud_density : ℚ)
    (rand : ℕ → ℚ) (c : Cell) (k : ℕ) : Cell × ℕ :=
  if c.biome = some BiomeType.forest then
    if rand k < tree_density then
      ({ c with feature := some Feature.tree }, k + 1)
    else if c.height ≤ water_level then
      ({ c with feature := some Feature.water }, k + 1)
    else if rand (k + 1) < cloud_density then
      ({ c with feature := some Feature.cloud }, k + 2)
    else (c, k + 2)
  else if c.height ≤ water_level then
    ({ c with feature := some Feature.water }, k)
  else if rand k < cloud_density then
    ({ c with feature := some Feature.cloud }, k + 1)
  else (c, k + 1)

/-- One row of the `add_biome_features` loop: Python iterates
`for x in range(len(landscape[0]))`, so exactly `n` leading cells of the row
are processed (`n` is row 0's length); a row shorter than `n` raises
`IndexError`, modelled by `none`; cells beyond `n` are left untouched. -/
def feature_row_upto (tree_density water_level cloud_density : ℚ)
    (rand : ℕ → ℚ) : ℕ → List Cell → ℕ → Option (List Cell × ℕ)
  | 0, cs, k => some (cs, k)
  | _ + 1, [], _ => none
  | n + 1, c :: cs, k =>
    let ck := feature_cell tree_density water_level cloud_density rand c k
    match feature_row_upto tree_density water_level cloud_density rand
      n cs ck.2 with
    | none => none
    | some (cs', k') => some (ck.1 :: cs', k')

/-- The row loop of `add_biome_features`, threading the draw counter in
program order (`y` outer, `x` inner). -/
def feature_rows (tree_density water_level cloud_density : ℚ)
    (rand : ℕ → ℚ) (w : ℕ) :
    List (List Cell) → ℕ → Option (List (List Cell) × ℕ)
  | [], k => some ([], k)
  | r :: rs, k =>
    match feature_row_upto tree_density water_level cloud_density rand
      w r k with
    | none => none
    | some (r', k') =>
      match feature_rows tree_density water_level cloud_density rand
        w rs k' with
      | none => none
      | some (rs', k'') => some (r' :: rs', k'')

/-- Function `add_biome_features` from `src/core/generator.py`.  On the empty grid the
loop body never runs (so `landscape[0]` is never evaluated); otherwise every
row is processed up to row 0's width. -/
def add_biome_features (landscape : List (List Cell))
    (tree_density water_level cloud_density : ℚ) (rand : ℕ → ℚ) :
    Option (List (List Cell)) :=
  match landscape with
  | [] => some []
  | r0 :: _ =>
    (feature_rows tree_density water_level cloud_density rand r0.length
      landscape 0).map Prod.fst

/-- Modelled from the spec's words (the feature-overlay rule order): tree
(biome FOREST and draw `< treeDensity`) is checked first, else water
(`elevation ≤ waterLevel`, independent of biome), else cloud
(draw `< cloudDensity`); the first matching rule wins, else no feature.
`treeDraw` / `cloudDraw` are the uniform draws consumed by the respective
rules. -/
def spec_first_match_feature (tree_density water_level cloud_density : ℚ)
    (treeDraw cloudDraw : ℚ) (c : Cell) : Option Feature :=
  if c.biome = some BiomeType.forest ∧ treeDraw < tree_density then
    some Feature.tree
  else if c.height ≤ water_level then some Feature.water
  else if cloudDraw < cloud_density then some Feature.cloud
  else none

/-- The cell relation realised by one `feature_cell` application at some
position of the draw stream, or by leaving the cell untouched. -/
def touched (tree_density water_level cloud_density : ℚ)
    (rand : ℕ → ℚ) (c c' : Cell) : Prop :=
  c' = c ∨ ∃ j,
    c' = (feature_cell tree_density water_level cloud_density rand c j).1

theorem feature_cell_feature (tree_density water_level cloud_density : ℚ)
    (rand : ℕ → ℚ) (c : Cell) (k : ℕ) :
    (feature_cell tree_density water_level cloud_density rand c k).1.feature
      = match spec_first_match_feature tree_density water_level cloud_density
          (rand k)
          (rand (if c.biome = some BiomeType.forest then k + 1 else k)) c with
        | some f => some f
        | none => c.feature := by
  rcases c with ⟨h, b, f⟩
  simp only [feature_cell, spec_first_match_feature]
  split_ifs <;> simp_all

theorem feature_cell_frame (tree_density water_level cloud_density : ℚ)
    (rand : ℕ → ℚ) (c : Cell) (k : ℕ) :
    (feature_cell tree_density water_level cloud_density rand c k).1.height
      = c.height ∧
    (feature_cell tree_density water_level cloud_density rand c k).1.biome
      = c.biome ∧
    ((feature_cell tree_density water_level cloud_density rand c k).1.feature
        = c.feature ∨
      ∃ f, (feature_cell tree_density water_level cloud_density rand
        c k).1.feature = some f) := by
  rcases c with ⟨h, b, f⟩
  simp only [feature_cell]
  split_ifs <;> simp_all

theorem feature_row_upto_touched (tree_density water_level cloud_density : ℚ)
    (rand : ℕ → ℚ) :
    ∀ (n : ℕ) (cs : List Cell) (k : ℕ) (cs' : List Cell) (k' : ℕ),
      feature_row_upto tree_density water_level cloud_density rand n cs k =
        some (cs', k') →
      List.Forall₂ (touched tree_density water_level cloud_density rand)
        cs cs' := by
  intro n
  induction n with
  | zero =>
    intro cs k cs' k' h
    simp only [feature_row_upto, Option.some.injEq, Prod.mk.injEq] at h
    rw [← h.1]
    exact List.forall₂_same.mpr fun c _ => Or.inl rfl
  | succ n ih =>
    intro cs k cs' k' h
    cases cs with
    | nil => simp [feature_row_upto] at h
    | cons c cs =>
      simp only [feature_row_upto] at h
      cases hrec : feature_row_upto tree_density water_level cloud_density
        rand n cs (feature_cell tree_density water_level cloud_density rand
          c k).2 with
      | none => rw [hrec] at h; simp at h
      | some p =>
        obtain ⟨cs₁, k₁⟩ := p
        rw [hrec] at h
        simp only [Option.some.injEq, Prod.mk.injEq] at h
        rw [← h.1]
        exact List.Forall₂.cons (Or.inr ⟨k, rfl⟩) (ih cs _ cs₁ k₁ hrec)

theorem feature_rows_touched (tree_density water_level cloud_density : ℚ)
    (rand : ℕ → ℚ) (w : ℕ) :
    ∀ (rs : List (List Cell)) (k : ℕ) (rs' : List (List Cell)) (k' : ℕ),
      feature_rows tree_density water_level cloud_density rand w rs k =
        some (rs', k') →
      List.Forall₂
        (List.Forall₂ (touched tree_density water_level cloud_density rand))
        rs rs' := by
  intro rs
  induction rs with
  | nil =>
    intro k rs' k' h
    simp only [feature_rows, Option.some.injEq, Prod.mk.injEq] at h
    rw [← h.1]
    exact List.Forall₂.nil
  | cons r rs ih =>
    intro k rs' k' h
    simp only [feature_rows] at h
    split at h
    · exact absurd h (by simp)
    next r₁ k₁ hrow =>
      split at h
      · exact absurd h (by simp)
      next rs₁ k₂ hrec =>
        simp only [Option.some.injEq, Prod.mk.injEq] at h
        rw [← h.1]
        exact List.Forall₂.cons
          (feature_row_upto_touched tree_density water_level cloud_density
            rand w r k r₁ k₁ hrow)
          (ih k₁ rs₁ k₂ hrec)

theorem add_biome_features_touched (landscape : List (List Cell))
    (tree_density water_level cloud_density : ℚ) (rand : ℕ → ℚ)
    (out : List (List Cell))
    (h : add_biome_features landscape tree_density water_level cloud_density
      rand = some out) :
    List.Forall₂
      (List.Forall₂ (touched tree_density water_level cloud_density rand))
      landscape out := by
  cases landscape with
  | nil =>
    simp only [add_biome_features, Option.some.injEq] at h
    rw [← h]
    exact List.Forall₂.nil
  | cons r0 rs =>
    simp only [add_biome_features] at h
    cases hrows : feature_rows tree_density water_level cloud_density rand
      r0.length (r0 :: rs) 0 with
    | none => rw [hrows] at h; simp at h
    | some p =>
      obtain ⟨rs₁, k₁⟩ := p
      rw [hrows] at h
      simp only [Option.map_some', Option.some.injEq] at h
      rw [← h]
      exact feature_rows_touched tree_density water_level cloud_density rand
        r0.length (r0 :: rs) 0 rs₁ k₁ hrows

/-- C3: in the per-cell body of `add_biome_features`, the feature rules are
applied in order — tree (FOREST and draw `< tree_density`) first, else water
(`elevation ≤ water_level`, independent of biome), else cloud (draw
`< cloud_density`) — the first matching rule winning (a cell with no
`"feature"` entry gets exactly the first-match feature, or none); and every
cell of the grid processed by `add_biome_features` gets its feature that way
(a cell carries a single optional feature, mirroring the source's single
`"feature"` dict key, so no cell is ever assigned more than one of
tree/water/cloud). -/
theorem C3_feature_rules_first_match (tree_density water_level
    cloud_density : ℚ) (rand : ℕ → ℚ) :
    (∀ (c : Cell) (k : ℕ), c.feature = none →
      (feature_cell tree_density water_level cloud_density rand
        c k).1.feature =
      spec_first_match_feature tree_density water_level cloud_density
        (rand k)
        (rand (if c.biome = some BiomeType.forest then k + 1 else k)) c) ∧
    (∀ (landscape out : List (List Cell)),
      add_biome_features landscape tree_density water_level cloud_density
        rand = some out →
      List.Forall₂ (List.Forall₂ (fun c c' =>
        c'.feature = c.feature ∨ ∃ t u, c'.feature =
          spec_first_match_feature tree_density water_level cloud_density
            t u c)) landscape out) := by
  constructor
  · intro c k hc
    rw [feature_cell_feature]
    cases hs : spec_first_match_feature tree_density water_level
      cloud_density (rand k)
      (rand (if c.biome = some BiomeType.forest then k + 1 else k)) c with
    | none => simpa using hc
    | some f => rfl
  · intro landscape out h
    refine (add_biome_features_touched landscape tree_density water_level
      cloud_density rand out h).imp ?_
    intro r r' hrr
    refine hrr.imp ?_
    intro c c' hcc
    rcases hcc with rfl | ⟨j, rfl⟩
    · exact Or.inl rfl
    · rw [feature_cell_feature]
      cases hs : spec_first_match_feature tree_density water_level
        cloud_density (rand j)
        (rand (if c.biome = some BiomeType.forest then j + 1 else j)) c with
      | none => exact Or.inl (by simp)
      | some f =>
        exact Or.inr ⟨rand j,
          rand (if c.biome = some BiomeType.forest then j + 1 else j),
          by simp [hs]⟩

/-- Witness for C3: a PLAINS cell of elevation 2 with `water_level = 1`,
`tree_density = 0`, `cloud_density = 1` and draws all 0: the first matching
rule is cloud. -/
theorem C3_feature_rules_first_match_witness :
    (feature_cell 0 1 1 (fun _ => 0)
      ⟨2, some BiomeType.plains, none⟩ 0).1.feature =
    spec_first_match_feature 0 1 1 0 0 ⟨2, some BiomeType.plains, none⟩ := by
  have h := (C3_feature_rules_first_match 0 1 1 (fun _ => 0)).1
    ⟨2, some BiomeType.plains, none⟩ 0 rfl
  simpa using h

/-- C10 (implicit frame property): `add_biome_features` preserves the grid
dimensions and every cell's `height` and `biome`; the only change it can
make to a cell is setting the single optional `feature` field to tree, water
or cloud; and a cell matching none of the three rules is returned
unchanged (in particular, still without a feature entry). -/
theorem C10_add_biome_features_frame (landscape : List (List Cell))
    (tree_density water_level cloud_density : ℚ) (rand : ℕ → ℚ)
    (out : List (List Cell))
    (h : add_biome_features landscape tree_density water_level cloud_density
      rand = some out) :
    out.length = landscape.length ∧
    List.Forall₂ (List.Forall₂ (fun c c' =>
      c'.height = c.height ∧ c'.biome = c.biome ∧
      (c'.feature = c.feature ∨ c'.feature = some Feature.tree ∨
       c'.feature = some Feature.water ∨
       c'.feature = some Feature.cloud))) landscape out ∧
    ∀ (c : Cell) (k : ℕ),
      (c.biome = some BiomeType.forest → ¬ rand k < tree_density) →
      ¬ c.height ≤ water_level →
      ¬ rand k < cloud_density → ¬ rand (k + 1) < cloud_density →
      (feature_cell tree_density water_level cloud_density rand c k).1 =
        c := by
  have hall := add_biome_features_touched landscape tree_density water_level
    cloud_density rand out h
  refine ⟨hall.length_eq.symm, ?_, ?_⟩
  · refine hall.imp ?_
    intro r r' hrr
    refine hrr.imp ?_
    intro c c' hcc
    rcases hcc with rfl | ⟨j, rfl⟩
    · exact ⟨rfl, rfl, Or.inl rfl⟩
    · obtain ⟨h1, h2, h3⟩ := feature_cell_frame tree_density water_level
        cloud_density rand c j
      refine ⟨h1, h2, ?_⟩
      rcases h3 with h3 | ⟨f, h3⟩
      · exact Or.inl h3
      · cases f <;> simp [h3]
  · intro c k hforest hw hc1 hc2
    rcases c with ⟨ch, cb, cf⟩
    simp only [feature_cell]
    split_ifs <;> simp_all

/-- Witness for C10: a one-cell OCEAN grid at elevation 0 with
`water_level = 1`: the water rule fires, heights/biomes/dimensions are
preserved; and with all-zero draws, `cloud_density = 0` and elevation 2 no
rule matches and the cell is returned unchanged. -/
theorem C10_add_biome_features_frame_witness :
    [[(⟨0, some BiomeType.ocean, some Feature.water⟩ : Cell)]].length =
      [[(⟨0, some BiomeType.ocean, none⟩ : Cell)]].length ∧
    List.Forall₂ (List.Forall₂ (fun c c' =>
      c'.height = c.height ∧ c'.biome = c.biome ∧
      (c'.feature = c.feature ∨ c'.feature = some Feature.tree ∨
       c'.feature = some Feature.water ∨
       c'.feature = some Feature.cloud)))
      [[(⟨0, some BiomeType.ocean, none⟩ : Cell)]]
      [[(⟨0, some BiomeType.ocean, some Feature.water⟩ : Cell)]] ∧
    ∀ (c : Cell) (k : ℕ),
      (c.biome = some BiomeType.forest → ¬ (fun _ => (0 : ℚ)) k < 0) →
      ¬ c.height ≤ 1 →
      ¬ (fun _ => (0 : ℚ)) k < 0 → ¬ (fun _ => (0 : ℚ)) (k + 1) < 0 →
      (feature_cell 0 1 0 (fun _ => (0 : ℚ)) c k).1 = c :=
  C10_add_biome_features_frame
    [[(⟨0, some BiomeType.ocean, none⟩ : Cell)]] 0 1 0 (fun _ => (0 : ℚ))
    [[(⟨0, some BiomeType.ocean, some Feature.water⟩ : Cell)]] (by decide)

/-- C5 counterexample: there is no parameter validation in the code; the
feature pass executes on an out-of-range `cloud_density = 2` (densities must
lie in `[0,1]`) and happily uses it, instead of rejecting it with an
InvalidParameter error before generation. -/
theorem C5_counterexample_no_rejection :
    add_biome_features [[(⟨2, some BiomeType.plains, none⟩ : Cell)]]
      0 1 2 (fun _ => 0) =
    some [[(⟨2, some BiomeType.plains, some Feature.cloud⟩ : Cell)]] := by
  decide

/-- C5 (amended): malformed generation parameters are not rejected —
neither `generate_advanced_landscape` nor `add_biome_features` validates its
parameters, no InvalidParameter error exists, and generation executes on
such parameters: here `add_biome_features` runs on an arbitrary (in
particular out-of-range) `cloud_density` and assigns features with it. -/
theorem C5_no_parameter_validation (c : Cell)
    (tree_density water_level cloud_density : ℚ) (rand : ℕ → ℚ)
    (hb : ¬ c.biome = some BiomeType.forest)
    (hw : ¬ c.height ≤ water_level)
    (hr : rand 0 < cloud_density) :
    add_biome_features [[c]] tree_density water_level cloud_density rand =
      some [[{ c with feature := some Feature.cloud }]] := by
  simp [add_biome_features, feature_rows, feature_row_upto, feature_cell,
    hb, hw, hr]

/-- Witness for C5 (amended) with `cloud_density = 2`, outside `[0,1]`. -/
theorem C5_no_parameter_validation_witness :
    ¬ ((⟨2, some BiomeType.plains, none⟩ : Cell).height ≤ 1) ∧
    (0 : ℚ) < 2 ∧
    add_biome_features [[(⟨2, some BiomeType.plains, none⟩ : Cell)]]
      0 1 2 (fun _ => 0) =
    some [[(⟨2, some BiomeType.plains, some Feature.cloud⟩ : Cell)]] :=
  ⟨by decide, by decide,
   C5_no_parameter_validation ⟨2, some BiomeType.plains, none⟩ 0 1 2
     (fun _ => 0) (by decide) (by decide) (by decide)⟩

/-- A validated `Block` record (`src/core/block.py`).  The untyped
`metadata` dict has no validator and is outside the embedding. -/
structure Block where
  x : ℤ
  y : ℤ
  z : ℤ
  type : BlockType
deriving DecidableEq, Repr

/-- A validated `Entity` record (`src/core/entity.py`).  The untyped
`attributes` dict has no validator and is outside the embedding. -/
structure Entity where
  x : ℤ
  y : ℤ
  z : ℤ
  type : EntityType
  health : ℤ
deriving DecidableEq, Repr

/-- A validated `Biome` record (`src/core/biome.py`). -/
structure Biome where
  name : String
  type : BiomeType
  blocks : List Block
  entities : List Entity
  temperature : ℚ
  humidity : ℚ
deriving DecidableEq, Repr

/-- Constructing a Block record: the
`validate_coordinates` field validator raises on a negative coordinate
(the `validate_block_type` isinstance check always passes for well-typed
values). -/
def mk_block (x y z : ℤ) (type : BlockType) : Except String Block :=
  if x < 0 then .error "Coordinates must be non-negative"
  else if y < 0 then .error "Coordinates must be non-negative"
  else if z < 0 then .error "Coordinates must be non-negative"
  else .ok ⟨x, y, z, type⟩

/-- Constructing `Entity(...)`: negative coordinates and negative health
are rejected (`validate_coordinates`, `validate_health`). -/
def mk_entity (x y z : ℤ) (type : EntityType) (health : ℤ) :
    Except String Entity :=
  if x < 0 then .error "Coordinates must be non-negative"
  else if y < 0 then .error "Coordinates must be non-negative"
  else if z < 0 then .error "Coordinates must be non-negative"
  else if health < 0 then .error "Health must be non-negative"
  else .ok ⟨x, y, z, type, health⟩

/-- Constructing `Biome(...)` (`src/core/biome.py`): empty name, empty
blocks list, empty entities list, temperature outside `[-1, 2]` and
humidity outside `[0, 1]` are rejected by the field validators. -/
def mk_biome (name : String) (type : BiomeType) (blocks : List Block)
    (entities : List Entity) (temperature humidity : ℚ) :
    Except String Biome :=
  if name = "" then .error "Name cannot be empty"
  else if blocks = [] then .error "Blocks list cannot be empty"
  else if entities = [] then .error "Entities list cannot be empty"
  else if temperature < -1 ∨ 2 < temperature then
    .error "Temperature must be between -1.0 and 2.0"
  else if humidity < 0 ∨ 1 < humidity then
    .error "Humidity must be between 0.0 and 1.0"
  else .ok ⟨name, type, blocks, entities, temperature, humidity⟩

/-- C8: for well-typed field values, `Block`, `Entity` and `Biome`
construction fails exactly when a field constraint is violated — negative
coordinates (Block, Entity), negative health (Entity), empty name / empty
blocks / empty entities / temperature outside `[-1, 2]` / humidity outside
`[0, 1]` (Biome) — and otherwise succeeds with exactly the given field
values. -/
theorem C8_record_validation :
    (∀ (x y z : ℤ) (t : BlockType),
      ((∃ b, mk_block x y z t = .ok b) ↔ 0 ≤ x ∧ 0 ≤ y ∧ 0 ≤ z) ∧
      ∀ b, mk_block x y z t = .ok b → b = ⟨x, y, z, t⟩) ∧
    (∀ (x y z : ℤ) (t : EntityType) (health : ℤ),
      ((∃ e, mk_entity x y z t health = .ok e) ↔
        0 ≤ x ∧ 0 ≤ y ∧ 0 ≤ z ∧ 0 ≤ health) ∧
      ∀ e, mk_entity x y z t health = .ok e → e = ⟨x, y, z, t, health⟩) ∧
    (∀ (name : String) (t : BiomeType) (blocks : List Block)
      (entities : List Entity) (temperature humidity : ℚ),
      ((∃ bi, mk_biome name t blocks entities temperature humidity = .ok bi)
        ↔ name ≠ "" ∧ blocks ≠ [] ∧ entities ≠ [] ∧
          -1 ≤ temperature ∧ temperature ≤ 2 ∧
          0 ≤ humidity ∧ humidity ≤ 1) ∧
      ∀ bi, mk_biome name t blocks entities temperature humidity = .ok bi →
        bi = ⟨name, t, blocks, entities, temperature, humidity⟩) := by
  refine ⟨fun x y z t => ⟨?_, ?_⟩, fun x y z t health => ⟨?_, ?_⟩,
    fun name t blocks entities temperature humidity => ⟨?_, ?_⟩⟩
  · unfold mk_block
    split_ifs <;> simp_all
  · intro b hb
    unfold mk_block at hb
    split_ifs at hb <;> simp_all
  · unfold mk_entity
    split_ifs <;> simp_all
  · intro e he
    unfold mk_entity at he
    split_ifs at he <;> simp_all
  · unfold mk_biome
    split_ifs with h1 h2 h3 h4 h5
    · simp_all
    · simp_all
    · simp_all
    · simp_all
      intro ht1 ht2 hh
      rcases h4 with h | h <;> linarith
    · simp_all
      intro hh
      rcases h5 with h | h <;> linarith
    · simp_all
  · intro bi hbi
    unfold mk_biome at hbi
    split_ifs at hbi <;> simp_all

/-- Witness for C8: a concrete valid Biome construction succeeds with
exactly the given fields. -/
theorem C8_record_validation_witness :
    mk_biome "Plains" BiomeType.plains [⟨0, 0, 0, BlockType.grass⟩]
      [⟨0, 0, 0, EntityType.sheep, 10⟩] (4/5) (2/5) =
    .ok ⟨"Plains", BiomeType.plains, [⟨0, 0, 0, BlockType.grass⟩],
      [⟨0, 0, 0, EntityType.sheep, 10⟩], 4/5, 2/5⟩ := by
  obtain ⟨bi, hbi⟩ :=
    (C8_record_validation.2.2 "Plains" BiomeType.plains
      [⟨0, 0, 0, BlockType.grass⟩] [⟨0, 0, 0, EntityType.sheep, 10⟩]
      (4/5) (2/5)).1.mpr
    (by refine ⟨by decide, by simp, by simp, ?_, ?_, ?_, ?_⟩ <;> norm_num)
  have hb := (C8_record_validation.2.2 "Plains" BiomeType.plains
    [⟨0, 0, 0, BlockType.grass⟩] [⟨0, 0, 0, EntityType.sheep, 10⟩]
    (4/5) (2/5)).2 bi hbi
  rw [hb] at hbi
  exact hbi

/-- Errors that world materialization can raise. -/
inductive PyError where
  | attributeError (type_name member : String)
deriving DecidableEq, Repr

/-- Python attribute access on the `BlockType` enum
(`src/core/block.py`): the member names that exist.  `BlockType.SANDSTONE`,
referenced by `create_biomes_from_landscape`, is not among them. -/
def blockTypeAttr : String → Option BlockType
  | "STONE" => some .stone
  | "DIRT" => some .dirt
  | "GRASS" => some .grass
  | "SAND" => some .sand
  | "WATER" => some .water
  | "WOOD" => some .wood
  | "LEAVES" => some .leaves
  | "DIAMOND_ORE" => some .diamond_ore
  | "GOLD_ORE" => some .gold_ore
  | "COAL_ORE" => some .coal_ore
  | "AIR" => some .air
  | "GRAVEL" => some .gravel
  | "LAPIS_LAZULI" => some .lapis_lazuli
  | "REDSTONE_ORE" => some .redstone_ore
  | "EMERALD_ORE" => some .emerald_ore
  | "OBSIDIAN" => some .obsidian
  | "BEDROCK" => some .bedrock
  | "ICE" => some .ice
  | "SNOW" => some .snow
  | "CLAY" => some .clay
  | "PUMPKIN" => some .pumpkin
  | "MELON" => some .melon
  | _ => none

/-- Helper `create_block` (`src/minecraft_art.py`): returns the block, or `None`
when validation fails. -/
def create_block (x y z : ℤ) (type : BlockType) : Option Block :=
  (mk_block x y z type).toOption

/-- Helper `create_entity` (`src/minecraft_art.py`): returns the entity, or `None`
when validation fails. -/
def create_entity (x y z : ℤ) (type : EntityType) (health : ℤ) :
    Option Entity :=
  (mk_entity x y z type health).toOption

/-- Helper `create_biome` as called by `create_biomes_from_landscape` (name, type,
blocks, entities, temperature, humidity): constructs a validated `Biome`,
returning `None` on a validation error.  The lists arrive as lists of
possibly-`None` helper results; a `None` element fails the `List[Block]` /
`List[Entity]` field validation. -/
def create_biome (name : String) (type : BiomeType)
    (blocks : List (Option Block)) (entities : List (Option Entity))
    (temperature humidity : ℚ) : Option Biome :=
  match blocks.mapM id, entities.mapM id with
  | some bs, some es =>
    (mk_biome name type bs es temperature humidity).toOption
  | _, _ => none

/-- The biome record name, `biome_type.value.capitalize()`. -/
def biome_name : BiomeType → String
  | .plains => "Plains"
  | .forest => "Forest"
  | .desert => "Desert"
  | .ocean => "Ocean"
  | .mountain => "Mountain"
  | .tundra => "Tundra"
  | .savanna => "Savanna"
  | .swamp => "Swamp"
  | .taiga => "Taiga"
  | .jungle => "Jungle"

/-- Method `MainWindow.get_biome_temperature` (`src/ui/main_window.py`). -/
def get_biome_temperature : BiomeType → ℚ
  | .plains => 4/5
  | .desert => 2
  | .forest => 7/10
  | .ocean => 1/2
  | .mountain => 1/5
  | .tundra => 0
  | .savanna => 6/5
  | .swamp => 4/5
  | .taiga => 1/4
  | .jungle => 19/20

/-- Method `MainWindow.get_biome_humidity` (`src/ui/main_window.py`). -/
def get_biome_humidity : BiomeType → ℚ
  | .plains => 2/5
  | .desert => 0
  | .forest => 4/5
  | .ocean => 9/10
  | .mountain => 3/10
  | .tundra => 1/5
  | .savanna => 1/2
  | .swamp => 9/10
  | .taiga => 7/10
  | .jungle => 9/10

/-- One step of the dict building in the first loop of
`create_biomes_from_landscape`: append the position under the cell's biome
key, creating the key at the end on first sight (Python dicts preserve
insertion order). -/
def add_position (acc : List (Option BiomeType × List (ℕ × ℕ)))
    (b : Option BiomeType) (p : ℕ × ℕ) :
    List (Option BiomeType × List (ℕ × ℕ)) :=
  match acc with
  | [] => [(b, [p])]
  | (b', ps) :: rest =>
    if b' = b then (b', ps ++ [p]) :: rest
    else (b', ps) :: add_position rest b p

/-- The first loop of `create_biomes_from_landscape`: positions grouped by
biome label, keys in first-seen order, cells scanned row-major
(`y` outer, `x` inner over row 0's width). -/
def biome_positions (landscape : List (List Cell)) :
    List (Option BiomeType × List (ℕ × ℕ)) :=
  (List.range landscape.length).foldl (fun acc y =>
    (List.range (landscape.headD []).length).foldl (fun acc x =>
      add_position acc (getCell landscape y x).biome (x, y)) acc) []

/-- The per-position body of the second loop of
`create_biomes_from_landscape`, threading the `random.random()` draw
counter: PLAINS gets grass/dirt/dirt blocks and a 10% sheep; DESERT builds
sand/sand blocks and then evaluates `BlockType.SANDSTONE`, which does not
exist — an `AttributeError`; other biome types get nothing. -/
def process_positions (rand : ℕ → ℚ) (bt : BiomeType) :
    List (ℕ × ℕ) → List (Option Block) → List (Option Entity) → ℕ →
    Except PyError (List (Option Block) × List (Option Entity) × ℕ)
  | [], blocks, entities, k => .ok (blocks, entities, k)
  | (x, y) :: ps, blocks, entities, k =>
    if bt = BiomeType.plains then
      let blocks := blocks ++ [create_block x y 0 .grass,
        create_block x y 1 .dirt, create_block x y 2 .dirt]
      let entities := if rand k < 1/10 then
          entities ++ [create_entity x y 0 .sheep 10]
        else entities
      process_positions rand bt ps blocks entities (k + 1)
    else if bt = BiomeType.desert then
      match blockTypeAttr "SANDSTONE" with
      | none => .error (.attributeError "BlockType" "SANDSTONE")
      | some t =>
        let blocks := blocks ++ [create_block x y 0 .sand,
          create_block x y 1 .sand, create_block x y 2 t]
        let entities := if rand k < 1/20 then
            entities ++ [create_entity x y 0 .zombie 20]
          else entities
        process_positions rand bt ps blocks entities (k + 1)
    else process_positions rand bt ps blocks entities k

/-- The second loop of `create_biomes_from_landscape`: one `create_biome`
call per distinct key.  A `None` key reaches `biome_type.value` and raises
`AttributeError`; the helper's `None` results (failed validation) are
appended to the output list as-is. -/
def create_biomes_go (rand : ℕ → ℚ) :
    List (Option BiomeType × List (ℕ × ℕ)) → List (Option Biome) → ℕ →
    Except PyError (List (Option Biome))
  | [], acc, _ => .ok acc
  | (bt, ps) :: rest, acc, k =>
    match bt with
    | none => .error (.attributeError "NoneType" "value")
    | some b =>
      match process_positions rand b ps [] [] k with
      | .error e => .error e
      | .ok (blocks, entities, k') =>
        create_biomes_go rand rest
          (acc ++ [create_biome (biome_name b) b blocks entities
            (get_biome_temperature b) (get_biome_humidity b)]) k'

/-- Method `MainWindow.create_biomes_from_landscape` (`src/ui/main_window.py`):
group cells by biome label, then materialize one biome record per label. -/
def create_biomes_from_landscape (landscape : List (List Cell))
    (rand : ℕ → ℚ) : Except PyError (List (Option Biome)) :=
  create_biomes_go rand (biome_positions landscape) [] 0

/-- C7 (code bug): on a 1×2 grid whose cells carry exactly the two distinct
labels PLAINS and DESERT, `create_biomes_from_landscape` does not produce
two biome records — it raises `AttributeError` because the DESERT branch
references the nonexistent enum member `BlockType.SANDSTONE` (the PLAINS
record, built first, is already `None`: its entity list stayed empty, which
`Biome` validation rejects). -/
theorem C7_two_label_grid_raises :
    create_biomes_from_landscape
      [[⟨1, some BiomeType.plains, none⟩, ⟨1, some BiomeType.desert, none⟩]]
      (fun _ => 1) =
    .error (.attributeError "BlockType" "SANDSTONE") := by
  have hsand : blockTypeAttr "SANDSTONE" = none := rfl
  norm_num [create_biomes_from_landscape, biome_positions, add_position,
    getCell, create_biomes_go, process_positions, hsand,
    List.range_succ]
  rfl

end Winchester
